import Mathlib

/-!
Verification development for the SQL Mentor repository.

The repository consists of two near-identical agent classes
(`sql_agent.py` and `mentor.py`, both named `SQLMentorAgent`) and a
Streamlit UI (`app.py`).  Python strings are embedded as `List Char`,
Python dictionaries as structures with `Option` fields for keys that may
be absent, and Python exceptions as `Except` values.  The external
Gemini transport and the standard-library JSON parser are parameters of
the functions that call them; all repository logic is embedded directly.
-/

/-- Python strings are embedded as lists of characters. -/
abbrev Str := List Char

/-! ## Python string primitives used by the repository -/

/-- Python `str.split(sep)` for a non-empty separator `sep`: the list of
chunks between occurrences of `sep`, scanning left to right.  (Python
raises on an empty separator; the repository only splits on the literal
markers, which are non-empty.) -/
def pySplit (sep : Str) (s : Str) : List Str :=
  match s with
  | [] => [[]]
  | c :: rest =>
    if h : sep ≠ [] ∧ sep.isPrefixOf (c :: rest) then
      [] :: pySplit sep ((c :: rest).drop sep.length)
    else
      match pySplit sep rest with
      | [] => [[c]]
      | chunk :: chunks => (c :: chunk) :: chunks
  termination_by s.length
  decreasing_by
    · have hs : 0 < sep.length := List.length_pos.mpr h.1
      simp [List.length_drop]
      omega
    · simp

/-- Python `str.strip()`: remove leading and trailing whitespace. -/
def pyStrip (s : Str) : Str :=
  ((s.dropWhile Char.isWhitespace).reverse.dropWhile Char.isWhitespace).reverse

/-- Python `str.lower()` (ASCII case, which is all the repository uses). -/
def pyLower (s : Str) : Str :=
  s.map Char.toLower

/-- `noOcc sep s = true` iff `sep` occurs nowhere in `s`. -/
def noOcc (sep : Str) (s : Str) : Bool :=
  match s with
  | [] => true
  | c :: rest => !sep.isPrefixOf (c :: rest) && noOcc sep rest

/-- `noEarlyOcc sep x y = true` iff in the string `x ++ sep ++ y` no
occurrence of `sep` starts inside the `x` part (so the displayed
occurrence of `sep` is the leftmost one). -/
def noEarlyOcc (sep x y : Str) : Bool :=
  match x with
  | [] => true
  | c :: rest => !sep.isPrefixOf ((c :: rest) ++ (sep ++ y)) && noEarlyOcc sep rest y

/-- A string is clean when it is non-empty and carries no leading or
trailing whitespace (so Python's `strip` leaves it unchanged). -/
def cleanStr (s : Str) : Bool :=
  !s.isEmpty && (s.dropWhile Char.isWhitespace == s) &&
    (s.reverse.dropWhile Char.isWhitespace == s.reverse)

/-! ## Data model: the embedded SQLite sample database

`_initialize_sample_db` in both `sql_agent.py` and `mentor.py` (lines
42-107, identical in the two files). -/

/-- A cell value of the embedded database. -/
inductive Value
  | int : Int → Value
  | text : Str → Value
deriving DecidableEq, Repr

/-- A database table: its name, column names, and rows. -/
structure Table where
  name : Str
  columns : List Str
  rows : List (List Value)
deriving DecidableEq, Repr

/-- The embedded database: the list of its tables (the contents of
`sqlite_master` restricted to tables). -/
structure Database where
  tables : List Table
deriving DecidableEq, Repr

/-- A completely fresh store (a nonexistent or empty database file). -/
def emptyDatabase : Database := { tables := [] }

def Database.findTable (db : Database) (t : Str) : Option Table :=
  db.tables.find? (fun tbl => tbl.name == t)

/-- The five seed rows of `students` (source lines 78-84). -/
def sampleStudents : List (List Value) :=
  [ [.int 1, .text ( "Alice Johnson".data), .int 15, .int 92, .text ( "alice@school.edu".data)],
    [.int 2, .text ( "Bob Smith".data), .int 16, .int 85, .text ( "bob@school.edu".data)],
    [.int 3, .text ( "Charlie Brown".data), .int 15, .int 78, .text ( "charlie@school.edu".data)],
    [.int 4, .text ( "Diana Prince".data), .int 17, .int 95, .text ( "diana@school.edu".data)],
    [.int 5, .text ( "Ethan Hunt".data), .int 16, .int 88, .text ( "ethan@school.edu".data)] ]

/-- The four seed rows of `courses` (source lines 86-91). -/
def sampleCourses : List (List Value) :=
  [ [.int 101, .text ( "Mathematics".data), .text ( "Mr. Anderson".data), .text ( "Room 101".data)],
    [.int 102, .text ( "Science".data), .text ( "Dr. Watson".data), .text ( "Lab 2".data)],
    [.int 103, .text ( "History".data), .text ( "Mrs. Parker".data), .text ( "Room 205".data)],
    [.int 104, .text ( "English".data), .text ( "Ms. Lang".data), .text ( "Room 104".data)] ]

/-- The eight seed rows of `enrollments` (source lines 93-102). -/
def sampleEnrollments : List (List Value) :=
  [ [.int 1, .int 101, .text ( "2023-09-01".data)],
    [.int 1, .int 102, .text ( "2023-09-01".data)],
    [.int 2, .int 101, .text ( "2023-09-01".data)],
    [.int 3, .int 103, .text ( "2023-09-02".data)],
    [.int 4, .int 102, .text ( "2023-09-01".data)],
    [.int 4, .int 104, .text ( "2023-09-03".data)],
    [.int 5, .int 101, .text ( "2023-09-01".data)],
    [.int 5, .int 103, .text ( "2023-09-02".data)] ]

def studentsTable : Table :=
  { name := "students".data,
    columns := [ "id".data, "name".data, "age".data, "grade".data, "email".data],
    rows := sampleStudents }

def coursesTable : Table :=
  { name := "courses".data,
    columns := [ "id".data, "name".data, "teacher".data, "room_number".data],
    rows := sampleCourses }

def enrollmentsTable : Table :=
  { name := "enrollments".data,
    columns := [ "student_id".data, "course_id".data, "enrollment_date".data],
    rows := sampleEnrollments }

/-- `_initialize_sample_db` (source lines 42-107): query `sqlite_master`
for existing tables; if none exist, create the three tables and insert
the fixed seed rows (then commit); if any table exists, do nothing. -/
def initialize_sample_db (db : Database) : Database :=
  if db.tables = [] then
    { tables := [studentsTable, coursesTable, enrollmentsTable] }
  else
    db

/-- The database produced by bootstrapping a fresh store. -/
def seededDatabase : Database := initialize_sample_db emptyDatabase

/-! ## The SQL execution engine

The queries the claims exercise, as an abstract syntax: `SELECT * FROM
t` and `SELECT * FROM t WHERE col > n`.  `runQuery` gives the embedded
engine's semantics for them: looking up a missing table (or column)
raises an engine error, which `pd.read_sql_query` surfaces as an
exception whose text `execute_sql` catches. -/

inductive Query
  | selectAll (table : Str)
  | selectWhereGt (table : Str) (column : Str) (bound : Int)
deriving DecidableEq, Repr

/-- The SQL text of a query, as the user would type it. -/
def Query.sqlText : Query → Str
  | .selectAll t => "SELECT * FROM ".data ++ t
  | .selectWhereGt t c b => "SELECT * FROM ".data ++ t ++ " WHERE ".data ++ c ++ " > ".data ++ (toString b).data

/-- The engine's error text for a missing table. -/
def noSuchTable (t : Str) : Str := "no such table: ".data ++ t

/-- The engine's error text for a missing column. -/
def noSuchColumn (c : Str) : Str := "no such column: ".data ++ c

/-- Does a row satisfy `col > bound` (the column being at index `i`)?
Values that are not integers (and absent cells) do not satisfy it. -/
def rowPasses (i : Nat) (bound : Int) (row : List Value) : Bool :=
  match row.get? i with
  | some (.int n) => bound < n
  | _ => false

/-- Engine semantics: either the header and rows of the result set, or
the engine's error text. -/
def runQuery (db : Database) : Query → Except Str (List Str × List (List Value))
  | .selectAll t =>
    match db.findTable t with
    | none => .error (noSuchTable t)
    | some tbl => .ok (tbl.columns, tbl.rows)
  | .selectWhereGt t c b =>
    match db.findTable t with
    | none => .error (noSuchTable t)
    | some tbl =>
      match tbl.columns.findIdx? (fun x => x == c) with
      | none => .error (noSuchColumn c)
      | some i => .ok (tbl.columns, tbl.rows.filter (rowPasses i b))

/-! ## `execute_sql` in the two agent copies

`sql_agent.py` lines 125-131 render the DataFrame to a string
(`df.to_string(index=False)`); `mentor.py` lines 125-131 return the
DataFrame itself.  A `DataVal` records which Python value ended up under
the `data` key. -/

/-- Rendering of a single cell, as pandas prints it. -/
def renderValue : Value → Str
  | .int n => (toString n).data
  | .text s => s

/-- Rendering of a single row: cells separated by single spaces (a
simplified model of pandas' column alignment; no claim depends on the
exact spacing). -/
def renderRow (row : List Value) : Str :=
  List.intercalate ( " ".data) (row.map renderValue)

/-- Model of `DataFrame.to_string(index=False)`: the header line
followed by one line per row. -/
def renderFrame (cols : List Str) (rows : List (List Value)) : Str :=
  List.intercalate ( "\n".data) (List.intercalate ( " ".data) cols :: rows.map renderRow)

/-- The Python value stored under the `data` key of a success result:
`sql_agent.py` stores a `str` (the rendered frame), `mentor.py` stores
the DataFrame itself. -/
inductive DataVal
  | rendered : Str → DataVal
  | frame : List Str × List (List Value) → DataVal
deriving DecidableEq, Repr

/-- The dictionary returned by `execute_sql`: `success` is always
present; `data` is present exactly on success and `error` exactly on
failure (`none` models an absent key). -/
structure QueryResult where
  success : Bool
  data : Option DataVal
  error : Option Str
deriving DecidableEq, Repr

namespace SqlAgent

/-- `execute_sql` of `sql_agent.py` (lines 125-131): run the query; on
success return `{"success": True, "data": df.to_string(index=False)}`;
on an engine exception return `{"success": False, "error": str(e)}`. -/
def execute_sql (db : Database) (q : Query) : QueryResult :=
  match runQuery db q with
  | .ok (cols, rows) => { success := true, data := some (.rendered (renderFrame cols rows)), error := none }
  | .error e => { success := false, data := none, error := some e }

end SqlAgent

namespace Mentor

/-- `execute_sql` of `mentor.py` (lines 125-131): identical to the
`sql_agent.py` copy except that on success it returns
`{"success": True, "data": df}` — the DataFrame, not its rendering. -/
def execute_sql (db : Database) (q : Query) : QueryResult :=
  match runQuery db q with
  | .ok (cols, rows) => { success := true, data := some (.frame (cols, rows)), error := none }
  | .error e => { success := false, data := none, error := some e }

end Mentor

/-! ## Agent construction (`__init__`, lines 10-40 of both copies)

`api_key = api_key or os.getenv("GOOGLE_API_KEY")` uses Python
truthiness: `None` and the empty string are both falsy.  If the
resolved key is falsy a `ValueError` is raised (before `genai.configure`
runs), so no agent value exists; otherwise Gemini is configured with the
key and the sample database is initialized. -/

/-- Python truthiness of an optional string (`None` and `""` are falsy). -/
def truthy : Option Str → Bool
  | none => false
  | some s => !s.isEmpty

/-- A successfully constructed `SQLMentorAgent`: the configured model
client's key, the database state after `_initialize_sample_db`, and the
empty learning-tracking state. -/
structure Agent where
  api_key : Str
  db_path : Str
  db : Database
  chat_history : List Str
  student_progress : List (Str × Int)
deriving DecidableEq, Repr

/-- The `ValueError` message of `sql_agent.py` line 17. -/
def sqlAgentKeyError : Str := "API is not correct".data

/-- The `ValueError` message of `mentor.py` line 17. -/
def mentorKeyError : Str := "API key must be provided either directly or via GOOGLE_API_KEY environment variable".data

/-- `SQLMentorAgent.__init__` with the raised `ValueError` made explicit
as an `Except.error` carrying the given message.  `arg` is the
constructor argument, `env` the value of `GOOGLE_API_KEY` (absent key
modelled as `none`), `store` the on-disk state of `db_path`. -/
def initAgent (errMsg : Str) (arg env : Option Str) (db_path : Str) (store : Database) : Except Str Agent :=
  match (if truthy arg then arg else env) with
  | none => .error errMsg
  | some k =>
    if k.isEmpty then .error errMsg
    else .ok { api_key := k, db_path := db_path, db := initialize_sample_db store,
               chat_history := [], student_progress := [] }

namespace SqlAgent

/-- `__init__` of `sql_agent.py` (lines 10-40). -/
def init (arg env : Option Str) (db_path : Str) (store : Database) : Except Str Agent :=
  initAgent sqlAgentKeyError arg env db_path store

end SqlAgent

namespace Mentor

/-- `__init__` of `mentor.py` (lines 10-40). -/
def init (arg env : Option Str) (db_path : Str) (store : Database) : Except Str Agent :=
  initAgent mentorKeyError arg env db_path store

end Mentor

/-! ## `ask_gemini` (lines 109-123 of both copies)

The Gemini transport (`model.generate_content`) and the standard
library's `json.loads` are external; they are parameters returning
`Except` (`error` modelling a raised exception).  The repository's
`try/except` is the embedded logic. -/

/-- A parsed JSON value (the result of `json.loads`). -/
inductive JsonVal
  | str : Str → JsonVal
  | num : Int → JsonVal
  | bool : Bool → JsonVal
  | null : JsonVal
  | arr : List JsonVal → JsonVal
  | obj : List (Str × JsonVal) → JsonVal

/-- The Python value `ask_gemini` returns: either a `str` or a parsed
JSON value (a dict such as `{"error": ...}` being `pyJson (.obj ...)`). -/
inductive AskReturn
  | pyStr : Str → AskReturn
  | pyJson : JsonVal → AskReturn

/-- The key of the inline error dictionary. -/
def errorKey : Str := "error".data

/-- The prefix of the inline error string (`f"Error: {str(e)}"`). -/
def errorPrefix : Str := "Error: ".data

/-- `ask_gemini(prompt, structured_output)`: call the transport inside
`try`; in structured mode parse the body with `json.loads`; any
exception from either step is caught and turned into
`{"error": str(e)}` (structured) or `f"Error: {str(e)}"` (plain). -/
def ask_gemini (generate : Str → Except Str Str) (jsonLoads : Str → Except Str JsonVal)
    (prompt : Str) (structured_output : Bool) : AskReturn :=
  if structured_output then
    match generate prompt with
    | .ok body =>
      match jsonLoads body with
      | .ok v => .pyJson v
      | .error e => .pyJson (.obj [(errorKey, .str e)])
    | .error e => .pyJson (.obj [(errorKey, .str e)])
  else
    match generate prompt with
    | .ok body => .pyStr body
    | .error e => .pyStr (errorPrefix ++ e)

/-! ## Prompt construction

`evaluate_student_query` (lines 149-174) and `generate_practice_problem`
(lines 176-201) build f-string prompts and pass them to `ask_gemini`.
The templates below reproduce the f-strings of the source (newlines and
the 8-space indentation of the triple-quoted literals included). -/

def successWord : Str := "Success".data

def failedPrefix : Str := "Failed: ".data

def evalTplQuestion : Str := "\n        Evaluate this SQL query:\n        \n        Question: ".data

def evalTplQuery : Str := "\n        Student's Query: ".data

def evalTplResult : Str := "\n        \n        Execution Result: ".data

def evalTplDataSep : Str := "\n        ".data

def evalTplTail : Str := "\n        \n        Provide feedback with:\n        1. Is it correct? If not, what's wrong?\n        2. What's done well?\n        3. How to improve?\n        4. Simplified error explanation if needed\n        \n        Format as:\n        - Correctness: [Correct/Incorrect]\n        - Feedback: [Detailed feedback]\n        - Strengths: [List of good points]\n        - Improvements: [List of suggestions]\n        ".data

/-- The `Execution Result:` interpolation (line 159 of both copies):
`"Success" if execution_result["success"] else "Failed: " + execution_result["error"]`. -/
def resultLine (r : QueryResult) : Str :=
  if r.success then successWord else failedPrefix ++ r.error.getD []

namespace SqlAgent

/-- Line 160 of `sql_agent.py`:
`execution_result["data"] if execution_result["success"] else ""` —
the stored data is already a string in this copy. -/
def dataLine (r : QueryResult) : Str :=
  if r.success then
    match r.data with
    | some (.rendered s) => s
    | _ => []
  else []

/-- The prompt built by `evaluate_student_query` of `sql_agent.py`
(lines 151-173) for a given database state, question and query. -/
def evalPrompt (db : Database) (question : Str) (q : Query) : Str :=
  let execution_result := execute_sql db q
  evalTplQuestion ++ question ++ evalTplQuery ++ q.sqlText ++ evalTplResult ++
    resultLine execution_result ++ evalTplDataSep ++ dataLine execution_result ++ evalTplTail

/-- `evaluate_student_query` of `sql_agent.py`: execute the query
locally, build the prompt around the outcome, send it to Gemini. -/
def evaluate_student_query (generate : Str → Except Str Str) (jsonLoads : Str → Except Str JsonVal)
    (db : Database) (question : Str) (q : Query) : AskReturn :=
  ask_gemini generate jsonLoads (evalPrompt db question q) false

end SqlAgent

namespace Mentor

/-- Model of `DataFrame.to_string()` (with the index column), used by
line 160 of `mentor.py`: like `renderFrame` with each row prefixed by
its positional index. -/
def renderFrameIndexed (cols : List Str) (rows : List (List Value)) : Str :=
  List.intercalate ( "\n".data)
    (List.intercalate ( " ".data) cols ::
      (rows.enum.map fun p => (toString p.1).data ++ " ".data ++ renderRow p.2))

/-- Line 160 of `mentor.py`:
`execution_result["data"].to_string() if execution_result["success"] else ""`. -/
def dataLine (r : QueryResult) : Str :=
  if r.success then
    match r.data with
    | some (.frame (cols, rows)) => renderFrameIndexed cols rows
    | _ => []
  else []

/-- The prompt built by `evaluate_student_query` of `mentor.py`
(lines 151-173). -/
def evalPrompt (db : Database) (question : Str) (q : Query) : Str :=
  let execution_result := execute_sql db q
  evalTplQuestion ++ question ++ evalTplQuery ++ q.sqlText ++ evalTplResult ++
    resultLine execution_result ++ evalTplDataSep ++ dataLine execution_result ++ evalTplTail

/-- `evaluate_student_query` of `mentor.py`. -/
def evaluate_student_query (generate : Str → Except Str Str) (jsonLoads : Str → Except Str JsonVal)
    (db : Database) (question : Str) (q : Query) : AskReturn :=
  ask_gemini generate jsonLoads (evalPrompt db question q) false

end Mentor

/-- The f-string template of `generate_practice_problem` (lines 178-200
of both copies), as a function of the topic and difficulty. -/
def practicePrompt (concepts difficulty : Str) : Str :=
  "\n        Create an SQL practice problem about: ".data ++ concepts ++
    "\n        Difficulty: ".data ++ difficulty ++
    "\n        \n        Our database has:\n        - students (id, name, age, grade, email)\n        - courses (id, name, teacher, room_number)\n        - enrollments (student_id, course_id, enrollment_date)\n        \n        Provide:\n        1. Clear problem statement\n        2. 2-3 hints\n        3. Sample solution\n        4. Expected output description\n        \n        Format as:\n        Problem: [description]\n        Hints:\n        1. [hint 1]\n        2. [hint 2]\n        Solution: [SQL query]\n        Expected Output: [description]\n        ".data

/-- `generate_practice_problem` (lines 176-201 of both copies): build
the template and return Gemini's free-text reply unchanged. -/
def generate_practice_problem (generate : Str → Except Str Str) (jsonLoads : Str → Except Str JsonVal)
    (concepts difficulty : Str) : AskReturn :=
  ask_gemini generate jsonLoads (practicePrompt concepts difficulty) false

/-! ## The Streamlit UI (`app.py`)

Tab 2 (lines 176-196) renders a practice-problem response by splitting
on the literal markers with unchecked `[1]` indexing; the sidebar's
Reset Session button (lines 126-128) calls `st.session_state.clear()`
and reruns the script. -/

def problemMarker : Str := "Problem:".data

def hintsMarker : Str := "Hints:".data

def solutionMarker : Str := "Solution:".data

/-- The text of the Python exception raised by `list[1]` on a
one-element list. -/
def indexError : Str := "IndexError: list index out of range".data

/-- The tab-2 rendering of a practice-problem response (app.py lines
182-187): `problem.split("Problem:")[1].split("Hints:")[0]` is shown as
the problem statement and `problem.split("Hints:")[1].split("Solution:")[0]`
as the hints.  `Except.error` models an uncaught `IndexError` escaping
the script; `Except.ok` carries the two displayed segments. -/
def renderPracticeProblem (problem : Str) : Except Str (Str × Str) :=
  match (pySplit problemMarker problem).get? 1 with
  | none => .error indexError
  | some seg1 =>
    let problemText := (pySplit hintsMarker seg1).headD []
    match (pySplit hintsMarker problem).get? 1 with
    | none => .error indexError
    | some seg2 => .ok (problemText, (pySplit solutionMarker seg2).headD [])

/-- One entry of `st.session_state.learning_history` (app.py lines
159-163): the dict `{'type': ..., 'topic': ..., 'content': ...}`. -/
structure HistoryEntry where
  type : Str
  topic : Str
  content : Str
deriving DecidableEq, Repr

/-- The per-session Streamlit state the app reads and writes:
`learning_history` and `current_problem` are `none` while the key is
absent from `st.session_state`; `progress` is the value of the
`SQL Mastery` slider, whose declared default is 25 (line 120). -/
structure SessionState where
  mentor_ready : Bool
  learning_history : Option (List HistoryEntry)
  current_problem : Option Str
  progress : Nat
deriving DecidableEq, Repr

/-- The slider default (app.py line 120). -/
def progressDefault : Nat := 25

/-- The session state right after (re-)initialization: no history, no
stored problem, the slider back at its default. -/
def initialSession (ready : Bool) : SessionState :=
  { mentor_ready := ready, learning_history := none, current_problem := none,
    progress := progressDefault }

/-- Tab-1 history accumulation (app.py lines 156-163): create the
`learning_history` key if absent, then append a `concept` entry. -/
def addConceptEntry (s : SessionState) (concept explanation : Str) : SessionState :=
  { s with learning_history := some (s.learning_history.getD [] ++
      [{ type := "concept".data, topic := concept, content := explanation }]) }

/-- Tab-2 stores the generated problem (app.py line 181). -/
def setCurrentProblem (s : SessionState) (problem : Str) : SessionState :=
  { s with current_problem := some problem }

/-- The Reset Session button (app.py lines 126-128):
`st.session_state.clear()` removes every key and `st.rerun()` re-runs
the script, which re-initializes the state from scratch. -/
def resetSession (_s : SessionState) (ready : Bool) : SessionState :=
  initialSession ready

/-! ## The line-oriented command interface

`interactive_learning` of `sql_agent.py` (lines 203-270): each input
line is `input(...).strip().lower()` and then dispatched on its
prefix. -/

inductive Command
  | exit
  | help
  | explainCmd (concept : Str)
  | explainUsage
  | practiceCmd (topic : Str)
  | practiceUsage
  | evaluateCmd (query : Str)
  | evaluateUsage
  | queryCmd (sql : Str)
  | queryUsage
  | unknown
deriving DecidableEq, Repr

def cmdExit : Str := "exit".data

def cmdHelp : Str := "help".data

def cmdExplain : Str := "explain".data

def cmdPractice : Str := "practice".data

def cmdEvaluate : Str := "evaluate".data

def cmdQuery : Str := "query".data

/-- The branch structure of `interactive_learning` (lines 217-270)
applied to the already stripped-and-lowercased input `u`: test the
command prefixes in source order and slice off the command word
(`[8:]` or `[5:]`) to obtain the argument.  `queryCmd sql` means
`execute_sql` is called on `sql`; the `...Usage` commands are the
"please specify ..." reminders for empty arguments. -/
def dispatchLowered (u : Str) : Command :=
  if cmdExit.isPrefixOf u then .exit
  else if cmdHelp.isPrefixOf u then .help
  else if cmdExplain.isPrefixOf u then
    let c := pyStrip (u.drop 8)
    if c.isEmpty then .explainUsage else .explainCmd c
  else if cmdPractice.isPrefixOf u then
    let t := pyStrip (u.drop 8)
    if t.isEmpty then .practiceUsage else .practiceCmd t
  else if cmdEvaluate.isPrefixOf u then
    let q := pyStrip (u.drop 8)
    if q.isEmpty then .evaluateUsage else .evaluateCmd q
  else if cmdQuery.isPrefixOf u then
    let q := pyStrip (u.drop 5)
    if q.isEmpty then .queryUsage else .queryCmd q
  else .unknown

/-- One loop iteration of `interactive_learning`:
`user_input = input(...).strip().lower()` (line 215) followed by the
prefix dispatch. -/
def dispatch (line : Str) : Command :=
  dispatchLowered (pyLower (pyStrip line))

/-! ## Witness-support definitions

Concrete transports and parsers used to instantiate the theorems about
`ask_gemini` and `evaluate_student_query`, the rendering bridge for the
comparison of the two `execute_sql` copies, and a concrete constructed
agent. -/

/-- A transport whose call raises (e.g. a quota failure). -/
def genFail : Str → Except Str Str :=
  fun _ => .error ( "429 Resource has been exhausted".data)

/-- A transport that returns a body that is not JSON. -/
def genOkBody : Str → Except Str Str :=
  fun _ => .ok ( "not json".data)

/-- `json.loads` raising on a non-JSON body. -/
def loadsFail : Str → Except Str JsonVal :=
  fun _ => .error ( "Expecting value: line 1 column 1 (char 0)".data)

/-- `json.loads` succeeding with `null`. -/
def loadsNull : Str → Except Str JsonVal :=
  fun _ => .ok .null

/-- Rendering a `data` value the way `sql_agent.py` stores it: a
DataFrame becomes its `to_string(index=False)` text; a string stays. -/
def renderDataVal : DataVal → DataVal
  | .rendered s => .rendered s
  | .frame (cols, rows) => .rendered (renderFrame cols rows)

/-- The agent value produced by a successful construction with the key
`"k"` against a fresh store. -/
def sampleOkAgent : Agent :=
  { api_key := "k".data, db_path := "sample.db".data, db := seededDatabase,
    chat_history := [], student_progress := [] }

/-! ## Helper lemmas on the Python string primitives -/

theorem pySplit_noOcc (sep : Str) :
    ∀ s : Str, noOcc sep s = true → pySplit sep s = [s] := by
  intro s
  induction s with
  | nil => intro _; simp [pySplit]
  | cons c rest ih =>
    intro h
    simp only [noOcc, Bool.and_eq_true, Bool.not_eq_true'] at h
    rw [pySplit]
    rw [dif_neg (by simp [h.1])]
    rw [ih h.2]

theorem pySplit_append (sep : Str) (hsep : sep ≠ []) :
    ∀ x y : Str, noEarlyOcc sep x y = true →
      pySplit sep (x ++ (sep ++ y)) = x :: pySplit sep y := by
  intro x
  induction x with
  | nil =>
    intro y _
    simp only [List.nil_append]
    match hmatch : sep ++ y with
    | [] => exact absurd (List.append_eq_nil.mp hmatch).1 hsep
    | c :: rest =>
      rw [pySplit]
      rw [dif_pos ⟨hsep, by rw [← hmatch]; exact List.isPrefixOf_iff_prefix.mpr (List.prefix_append sep y)⟩]
      rw [← hmatch, List.drop_left]
  | cons c rest ih =>
    intro y h
    simp only [noEarlyOcc, List.cons_append, Bool.and_eq_true, Bool.not_eq_true'] at h
    simp only [List.cons_append]
    rw [pySplit]
    rw [dif_neg fun hcontra => by simp [h.1] at hcontra]
    rw [ih y h.2]

theorem isWhitespace_toLower (c : Char) (h : c.isWhitespace = false) :
    (Char.toLower c).isWhitespace = false := by
  unfold Char.toLower
  simp only
  split
  · rename_i hn
    obtain ⟨h1, h2⟩ := hn
    set k := Char.toNat c with hk
    clear_value k
    interval_cases k <;> decide
  · exact h

theorem head_not_ws_of_dropWhile_eq {c : Char} {t : Str}
    (h : (c :: t).dropWhile Char.isWhitespace = c :: t) : c.isWhitespace = false := by
  by_cases hp : c.isWhitespace
  · rw [List.dropWhile_cons, if_pos hp] at h
    have hlen := congrArg List.length h
    have hle := (List.dropWhile_sublist (l := t) Char.isWhitespace).length_le
    simp at hlen
    omega
  · simpa using hp

theorem cleanStr_spec {s : Str} (h : cleanStr s = true) :
    s ≠ [] ∧ s.dropWhile Char.isWhitespace = s ∧
      s.reverse.dropWhile Char.isWhitespace = s.reverse := by
  simp only [cleanStr, Bool.and_eq_true, beq_iff_eq, Bool.not_eq_true', List.isEmpty_eq_false] at h
  exact ⟨h.1.1, h.1.2, h.2⟩

theorem pyStrip_prefix_append (c : Char) (p arg : Str)
    (hc : c.isWhitespace = false) (h : cleanStr arg = true) :
    pyStrip ((c :: p) ++ arg) = (c :: p) ++ arg := by
  obtain ⟨hne, _hl, hr⟩ := cleanStr_spec h
  unfold pyStrip
  rw [List.cons_append, List.dropWhile_cons, if_neg (by simp [hc])]
  have hrev : (c :: (p ++ arg)).reverse = arg.reverse ++ (p.reverse ++ [c]) := by
    simp
  rw [hrev]
  obtain ⟨b, u, hbu⟩ : ∃ b u, arg.reverse = b :: u := by
    cases harg : arg.reverse with
    | nil => exact absurd (by simpa using harg) hne
    | cons b u => exact ⟨b, u, rfl⟩
  have hb : b.isWhitespace = false := head_not_ws_of_dropWhile_eq (by rw [← hbu]; exact hr)
  rw [hbu, List.cons_append, List.dropWhile_cons, if_neg (by simp [hb])]
  rw [← List.cons_append, ← hbu]
  simp

theorem pyStrip_pyLower {arg : Str} (h : cleanStr arg = true) :
    pyStrip (pyLower arg) = pyLower arg := by
  obtain ⟨hne, hl, hr⟩ := cleanStr_spec h
  obtain ⟨a, t, hat⟩ : ∃ a t, arg = a :: t := by
    cases arg with
    | nil => exact absurd rfl hne
    | cons a t => exact ⟨a, t, rfl⟩
  have ha : a.isWhitespace = false := head_not_ws_of_dropWhile_eq (by rw [← hat]; exact hl)
  obtain ⟨b, u, hbu⟩ : ∃ b u, arg.reverse = b :: u := by
    cases harg : arg.reverse with
    | nil => exact absurd (by simpa using harg) hne
    | cons b u => exact ⟨b, u, rfl⟩
  have hb : b.isWhitespace = false := head_not_ws_of_dropWhile_eq (by rw [← hbu]; exact hr)
  unfold pyStrip
  have h1 : (pyLower arg).dropWhile Char.isWhitespace = pyLower arg := by
    rw [hat]
    simp only [pyLower, List.map_cons, List.dropWhile_cons]
    rw [if_neg (by simp [isWhitespace_toLower a ha])]
  rw [h1]
  have h2 : (pyLower arg).reverse.dropWhile Char.isWhitespace = (pyLower arg).reverse := by
    have : (pyLower arg).reverse = pyLower arg.reverse := by
      simp [pyLower]
    rw [this, hbu]
    simp only [pyLower, List.map_cons, List.dropWhile_cons]
    rw [if_neg (by simp [isWhitespace_toLower b hb])]
  rw [h2]
  simp

theorem pyStrip_cons_space (s : Str) : pyStrip (' ' :: s) = pyStrip s := by
  unfold pyStrip
  rw [List.dropWhile_cons, if_pos (by decide)]

theorem pyLower_ne_nil {arg : Str} (h : cleanStr arg = true) : (pyLower arg).isEmpty = false := by
  have := (cleanStr_spec h).1
  simp [pyLower]
  simpa using this

/-! ## Helper lemmas on the engine and the constructor -/

theorem runQuery_error_ne_nil {db : Database} {q : Query} {e : Str}
    (h : runQuery db q = .error e) : e ≠ [] := by
  cases q with
  | selectAll t =>
    simp only [runQuery] at h
    split at h
    · injection h with h
      rw [← h]
      simp [noSuchTable]
    · exact absurd h (by simp)
  | selectWhereGt t c b =>
    simp only [runQuery] at h
    split at h
    · injection h with h
      rw [← h]
      simp [noSuchTable]
    · split at h
      · injection h with h
        rw [← h]
        simp [noSuchColumn]
      · exact absurd h (by simp)

theorem initAgent_ok_key {msg : Str} {arg env : Option Str} {p : Str} {store : Database}
    {a : Agent} (h : initAgent msg arg env p store = .ok a) : a.api_key ≠ [] := by
  unfold initAgent at h
  split at h
  · exact absurd h (by simp)
  · rename_i k
    split at h
    · exact absurd h (by simp)
    · rename_i he
      injection h with h
      rw [← h]
      simpa using he

/-! ## The claims -/

/-- C2: for every query whose execution fails in the embedded database,
`execute_sql` (in both copies) returns `success = False`, no `data` key,
and an `error` key holding the engine's message unmodified — which is
never empty; the exception never reaches the caller (the functions are
total, returning a plain `QueryResult`). -/
theorem execute_sql_failure_shape (db : Database) (q : Query) (e : Str)
    (h : runQuery db q = .error e) :
    SqlAgent.execute_sql db q = { success := false, data := none, error := some e } ∧
    Mentor.execute_sql db q = { success := false, data := none, error := some e } ∧
    e ≠ [] := by
  refine ⟨?_, ?_, runQuery_error_ne_nil h⟩
  · unfold SqlAgent.execute_sql
    rw [h]
  · unfold Mentor.execute_sql
    rw [h]

/-- Witness for C2: `SELECT * FROM nonexistent_table` against the seeded
database fails with the engine's missing-table message. -/
theorem execute_sql_failure_witness :
    runQuery seededDatabase (.selectAll ( "nonexistent_table".data)) =
      .error ( "no such table: nonexistent_table".data) ∧
    SqlAgent.execute_sql seededDatabase (.selectAll ( "nonexistent_table".data)) =
      { success := false, data := none, error := some ( "no such table: nonexistent_table".data) } ∧
    ( "no such table: nonexistent_table".data : Str) ≠ [] :=
  ⟨rfl,
    (execute_sql_failure_shape seededDatabase (.selectAll ( "nonexistent_table".data))
      ( "no such table: nonexistent_table".data) rfl).1,
    (execute_sql_failure_shape seededDatabase (.selectAll ( "nonexistent_table".data))
      ( "no such table: nonexistent_table".data) rfl).2.2⟩

/-- C4: bootstrapping a fresh empty store yields exactly 5 student rows,
4 course rows and 8 enrollment rows; running the bootstrap again leaves
the store unchanged, and more generally any store with at least one
existing table is returned untouched (all seeding skipped). -/
theorem initialize_sample_db_idempotent :
    (seededDatabase.findTable ( "students".data)).map (fun t => t.rows.length) = some 5 ∧
    (seededDatabase.findTable ( "courses".data)).map (fun t => t.rows.length) = some 4 ∧
    (seededDatabase.findTable ( "enrollments".data)).map (fun t => t.rows.length) = some 8 ∧
    initialize_sample_db seededDatabase = seededDatabase ∧
    (∀ db : Database, db.tables ≠ [] → initialize_sample_db db = db) := by
  refine ⟨by decide, by decide, by decide, by decide, ?_⟩
  intro db h
  unfold initialize_sample_db
  rw [if_neg h]

/-- Witness for C4: the seeded database itself has tables, so a second
bootstrap run is skipped and every row count is unchanged. -/
theorem initialize_sample_db_witness :
    seededDatabase.tables ≠ [] ∧ initialize_sample_db seededDatabase = seededDatabase :=
  ⟨by decide, initialize_sample_db_idempotent.2.2.2.2 seededDatabase (by decide)⟩

/-- C5: constructing the agent with no API key — `None` argument and no
`GOOGLE_API_KEY` in the environment — raises `ValueError` in both
copies, so no agent value exists; and every successful construction
holds a non-empty key, so construction never silently completes with a
disabled model client. -/
theorem init_requires_api_key :
    (∀ (db_path : Str) (store : Database),
      SqlAgent.init none none db_path store = .error sqlAgentKeyError ∧
      Mentor.init none none db_path store = .error mentorKeyError) ∧
    (∀ (arg env : Option Str) (db_path : Str) (store : Database) (a : Agent),
      SqlAgent.init arg env db_path store = .ok a → a.api_key ≠ []) ∧
    (∀ (arg env : Option Str) (db_path : Str) (store : Database) (a : Agent),
      Mentor.init arg env db_path store = .ok a → a.api_key ≠ []) := by
  refine ⟨fun p s => ⟨rfl, rfl⟩, ?_, ?_⟩
  · intro arg env p s a h
    exact initAgent_ok_key h
  · intro arg env p s a h
    exact initAgent_ok_key h

/-- Witness for C5: keyless construction fails with each copy's message,
and a construction that succeeds (key `"k"`) holds that non-empty key. -/
theorem init_requires_api_key_witness :
    SqlAgent.init none none ( "sample.db".data) emptyDatabase = .error sqlAgentKeyError ∧
    Mentor.init none none ( "sample.db".data) emptyDatabase = .error mentorKeyError ∧
    sampleOkAgent.api_key ≠ [] :=
  ⟨(init_requires_api_key.1 ( "sample.db".data) emptyDatabase).1,
    (init_requires_api_key.1 ( "sample.db".data) emptyDatabase).2,
    init_requires_api_key.2.1 (some ( "k".data)) none ( "sample.db".data) emptyDatabase
      sampleOkAgent rfl⟩

/-- C7: against the freshly seeded database,
`SELECT * FROM students WHERE grade > 90` succeeds with exactly the two
seed rows whose grades are 92 (Alice Johnson) and 95 (Diana Prince):
`mentor.py` returns them as the DataFrame, `sql_agent.py` as its
rendering. -/
theorem execute_sql_grade_filter :
    Mentor.execute_sql seededDatabase (.selectWhereGt ( "students".data) ( "grade".data) 90) =
      { success := true,
        data := some (.frame (studentsTable.columns,
          [ [.int 1, .text ( "Alice Johnson".data), .int 15, .int 92, .text ( "alice@school.edu".data)],
            [.int 4, .text ( "Diana Prince".data), .int 17, .int 95, .text ( "diana@school.edu".data)] ])),
        error := none } ∧
    SqlAgent.execute_sql seededDatabase (.selectWhereGt ( "students".data) ( "grade".data) 90) =
      { success := true,
        data := some (.rendered (renderFrame studentsTable.columns
          [ [.int 1, .text ( "Alice Johnson".data), .int 15, .int 92, .text ( "alice@school.edu".data)],
            [.int 4, .text ( "Diana Prince".data), .int 17, .int 95, .text ( "diana@school.edu".data)] ])),
        error := none } := by
  constructor
  · decide
  · decide

/-- C8 counterexample: the two copies are not behaviorally equivalent as
claimed — on the same successful query their `execute_sql` results
differ, because `sql_agent.py` stores the rendered string under `data`
while `mentor.py` stores the DataFrame. -/
theorem execute_sql_copies_differ :
    SqlAgent.execute_sql seededDatabase (.selectAll ( "students".data)) ≠
      Mentor.execute_sql seededDatabase (.selectAll ( "students".data)) := by
  decide

/-- C8 amended: the two `execute_sql` copies agree up to data
representation — identical `success` flags, identical `error` text, and
`sql_agent.py`'s `data` is exactly the `to_string(index=False)`
rendering of `mentor.py`'s DataFrame `data`. -/
theorem execute_sql_copies_agree_up_to_rendering :
    ∀ (db : Database) (q : Query),
      (SqlAgent.execute_sql db q).success = (Mentor.execute_sql db q).success ∧
      (SqlAgent.execute_sql db q).error = (Mentor.execute_sql db q).error ∧
      (SqlAgent.execute_sql db q).data = (Mentor.execute_sql db q).data.map renderDataVal := by
  intro db q
  unfold SqlAgent.execute_sql Mentor.execute_sql
  cases runQuery db q with
  | ok pr =>
    cases pr
    simp [renderDataVal]
  | error e => simp

/-- C9: the Reset Session action (`st.session_state.clear()` followed by
a rerun) restores the initial session state from any accumulated state —
in particular after any sequence of tab-1 history appends and a stored
practice problem, the learning history and stored problem are gone and
the progress slider is back at its declared default. -/
theorem reset_session_clears :
    ∀ (s : SessionState) (ready : Bool) (entries : List (Str × Str)) (problem : Str),
      resetSession s ready = initialSession ready ∧
      (resetSession (setCurrentProblem
          (entries.foldl (fun st p => addConceptEntry st p.1 p.2) s) problem) ready).learning_history
        = none ∧
      (resetSession s ready).current_problem = none ∧
      (resetSession s ready).progress = progressDefault :=
  fun _ _ _ _ => ⟨rfl, rfl, rfl, rfl⟩

/-- C3: `evaluate_student_query` always runs the query locally first —
the prompt it hands to the model is a function of that execution result —
and whenever local execution fails, the prompt contains the literal word
`Failed` (as `Failed: `) immediately followed by the engine's error
text.  The explicit decomposition exhibits the occurrence; it holds for
both agent copies (on failure their prompts coincide, the data line
being empty). -/
theorem evaluate_student_query_failed_prompt
    (generate : Str → Except Str Str) (jsonLoads : Str → Except Str JsonVal)
    (db : Database) (question : Str) (q : Query) (e : Str)
    (h : runQuery db q = .error e) :
    SqlAgent.evaluate_student_query generate jsonLoads db question q =
        ask_gemini generate jsonLoads (SqlAgent.evalPrompt db question q) false ∧
    Mentor.evaluate_student_query generate jsonLoads db question q =
        ask_gemini generate jsonLoads (Mentor.evalPrompt db question q) false ∧
    SqlAgent.evalPrompt db question q =
        (evalTplQuestion ++ question ++ evalTplQuery ++ q.sqlText ++ evalTplResult) ++
          (failedPrefix ++ e) ++ (evalTplDataSep ++ evalTplTail) ∧
    Mentor.evalPrompt db question q =
        (evalTplQuestion ++ question ++ evalTplQuery ++ q.sqlText ++ evalTplResult) ++
          (failedPrefix ++ e) ++ (evalTplDataSep ++ evalTplTail) := by
  refine ⟨rfl, rfl, ?_, ?_⟩
  · unfold SqlAgent.evalPrompt SqlAgent.dataLine resultLine SqlAgent.execute_sql
    rw [h]
    simp [List.append_assoc]
  · unfold Mentor.evalPrompt Mentor.dataLine resultLine Mentor.execute_sql
    rw [h]
    simp [List.append_assoc]

/-- Witness for C3: a query against a missing table, evaluated with a
concrete transport; the prompt decomposes around `Failed: ` plus the
engine message. -/
theorem evaluate_student_query_failed_witness :
    SqlAgent.evalPrompt seededDatabase ( "show everything".data) (.selectAll ( "nope".data)) =
      (evalTplQuestion ++ "show everything".data ++ evalTplQuery ++
          (Query.selectAll ( "nope".data)).sqlText ++ evalTplResult) ++
        (failedPrefix ++ "no such table: nope".data) ++ (evalTplDataSep ++ evalTplTail) :=
  (evaluate_student_query_failed_prompt genOkBody loadsNull seededDatabase
    ( "show everything".data) (.selectAll ( "nope".data)) ( "no such table: nope".data) rfl).2.2.1

/-- C6: every exception raised inside `ask_gemini`'s `try` — a transport
failure in either mode, or a `json.loads` failure in structured mode —
is caught and converted into an inline error value (`{"error": str(e)}`
when structured, the string `"Error: " + str(e)` otherwise) and never
propagated (the function is total); a successful non-structured response
returns its raw text unchanged, and a successful structured parse
returns the parsed value. -/
theorem ask_gemini_error_handling (generate : Str → Except Str Str)
    (jsonLoads : Str → Except Str JsonVal) (prompt body e : Str) (v : JsonVal) :
    (generate prompt = .error e →
      ask_gemini generate jsonLoads prompt true = .pyJson (.obj [(errorKey, .str e)]) ∧
      ask_gemini generate jsonLoads prompt false = .pyStr (errorPrefix ++ e)) ∧
    (generate prompt = .ok body → jsonLoads body = .error e →
      ask_gemini generate jsonLoads prompt true = .pyJson (.obj [(errorKey, .str e)])) ∧
    (generate prompt = .ok body →
      ask_gemini generate jsonLoads prompt false = .pyStr body) ∧
    (generate prompt = .ok body → jsonLoads body = .ok v →
      ask_gemini generate jsonLoads prompt true = .pyJson v) := by
  refine ⟨fun hg => ⟨?_, ?_⟩, fun hg hj => ?_, fun hg => ?_, fun hg hj => ?_⟩
  · simp [ask_gemini, hg]
  · simp [ask_gemini, hg]
  · simp [ask_gemini, hg, hj]
  · simp [ask_gemini, hg]
  · simp [ask_gemini, hg, hj]

/-- Witness for C6: concrete transports exercising every branch — a
raising transport in both modes, a non-JSON body in structured mode, and
the two success paths. -/
theorem ask_gemini_error_handling_witness :
    ask_gemini genFail loadsFail ( "hi".data) true =
      .pyJson (.obj [(errorKey, .str ( "429 Resource has been exhausted".data))]) ∧
    ask_gemini genFail loadsFail ( "hi".data) false =
      .pyStr (errorPrefix ++ "429 Resource has been exhausted".data) ∧
    ask_gemini genOkBody loadsFail ( "hi".data) true =
      .pyJson (.obj [(errorKey, .str ( "Expecting value: line 1 column 1 (char 0)".data))]) ∧
    ask_gemini genOkBody loadsFail ( "hi".data) false = .pyStr ( "not json".data) ∧
    ask_gemini genOkBody loadsNull ( "hi".data) true = .pyJson .null :=
  ⟨((ask_gemini_error_handling genFail loadsFail ( "hi".data) ( "x".data)
      ( "429 Resource has been exhausted".data) .null).1 rfl).1,
    ((ask_gemini_error_handling genFail loadsFail ( "hi".data) ( "x".data)
      ( "429 Resource has been exhausted".data) .null).1 rfl).2,
    (ask_gemini_error_handling genOkBody loadsFail ( "hi".data) ( "not json".data)
      ( "Expecting value: line 1 column 1 (char 0)".data) .null).2.1 rfl rfl,
    (ask_gemini_error_handling genOkBody loadsFail ( "hi".data) ( "not json".data)
      ( "Expecting value: line 1 column 1 (char 0)".data) .null).2.2.1 rfl,
    (ask_gemini_error_handling genOkBody loadsNull ( "hi".data) ( "not json".data)
      ( "x".data) .null).2.2.2 rfl rfl⟩

/-- C10: in `interactive_learning` every input line is stripped and
lowercased before dispatch; consequently, for a line `query <sql>` whose
argument is clean (non-empty, no surrounding whitespace), the string
passed to `execute_sql` is exactly the lowercase form of the user's SQL
text — and likewise the arguments of `explain`, `practice` and
`evaluate` reach their operations lowercased. -/
theorem interactive_args_lowercased (arg : Str) (h : cleanStr arg = true) :
    dispatch ( "query ".data ++ arg) = Command.queryCmd (pyLower arg) ∧
    dispatch ( "explain ".data ++ arg) = Command.explainCmd (pyLower arg) ∧
    dispatch ( "practice ".data ++ arg) = Command.practiceCmd (pyLower arg) ∧
    dispatch ( "evaluate ".data ++ arg) = Command.evaluateCmd (pyLower arg) := by
  refine ⟨?_, ?_, ?_, ?_⟩
  · unfold dispatch
    have hs : pyStrip ( "query ".data ++ arg) = "query ".data ++ arg :=
      pyStrip_prefix_append 'q' ( "uery ".data) arg (by decide) h
    rw [hs]
    have hu : pyLower ( "query ".data ++ arg) = "query ".data ++ pyLower arg := by
      simp only [pyLower, List.map_append]
      congr 1
    rw [hu]
    unfold dispatchLowered
    simp only [show cmdExit.isPrefixOf ( "query ".data ++ pyLower arg) = false from rfl,
      show cmdHelp.isPrefixOf ( "query ".data ++ pyLower arg) = false from rfl,
      show cmdExplain.isPrefixOf ( "query ".data ++ pyLower arg) = false from rfl,
      show cmdPractice.isPrefixOf ( "query ".data ++ pyLower arg) = false from rfl,
      show cmdEvaluate.isPrefixOf ( "query ".data ++ pyLower arg) = false from rfl,
      show cmdQuery.isPrefixOf ( "query ".data ++ pyLower arg) = true from rfl,
      Bool.false_eq_true, if_false, if_true]
    have hdrop : ( "query ".data ++ pyLower arg).drop 5 = ' ' :: pyLower arg := rfl
    rw [hdrop, pyStrip_cons_space, pyStrip_pyLower h, pyLower_ne_nil h]
    simp
  · unfold dispatch
    have hs : pyStrip ( "explain ".data ++ arg) = "explain ".data ++ arg :=
      pyStrip_prefix_append 'e' ( "xplain ".data) arg (by decide) h
    rw [hs]
    have hu : pyLower ( "explain ".data ++ arg) = "explain ".data ++ pyLower arg := by
      simp only [pyLower, List.map_append]
      congr 1
    rw [hu]
    unfold dispatchLowered
    simp only [show cmdExit.isPrefixOf ( "explain ".data ++ pyLower arg) = false from rfl,
      show cmdHelp.isPrefixOf ( "explain ".data ++ pyLower arg) = false from rfl,
      show cmdExplain.isPrefixOf ( "explain ".data ++ pyLower arg) = true from rfl,
      Bool.false_eq_true, if_false, if_true]
    have hdrop : ( "explain ".data ++ pyLower arg).drop 8 = pyLower arg := rfl
    rw [hdrop, pyStrip_pyLower h, pyLower_ne_nil h]
    simp
  · unfold dispatch
    have hs : pyStrip ( "practice ".data ++ arg) = "practice ".data ++ arg :=
      pyStrip_prefix_append 'p' ( "ractice ".data) arg (by decide) h
    rw [hs]
    have hu : pyLower ( "practice ".data ++ arg) = "practice ".data ++ pyLower arg := by
      simp only [pyLower, List.map_append]
      congr 1
    rw [hu]
    unfold dispatchLowered
    simp only [show cmdExit.isPrefixOf ( "practice ".data ++ pyLower arg) = false from rfl,
      show cmdHelp.isPrefixOf ( "practice ".data ++ pyLower arg) = false from rfl,
      show cmdExplain.isPrefixOf ( "practice ".data ++ pyLower arg) = false from rfl,
      show cmdPractice.isPrefixOf ( "practice ".data ++ pyLower arg) = true from rfl,
      Bool.false_eq_true, if_false, if_true]
    have hdrop : ( "practice ".data ++ pyLower arg).drop 8 = ' ' :: pyLower arg := rfl
    rw [hdrop, pyStrip_cons_space, pyStrip_pyLower h, pyLower_ne_nil h]
    simp
  · unfold dispatch
    have hs : pyStrip ( "evaluate ".data ++ arg) = "evaluate ".data ++ arg :=
      pyStrip_prefix_append 'e' ( "valuate ".data) arg (by decide) h
    rw [hs]
    have hu : pyLower ( "evaluate ".data ++ arg) = "evaluate ".data ++ pyLower arg := by
      simp only [pyLower, List.map_append]
      congr 1
    rw [hu]
    unfold dispatchLowered
    simp only [show cmdExit.isPrefixOf ( "evaluate ".data ++ pyLower arg) = false from rfl,
      show cmdHelp.isPrefixOf ( "evaluate ".data ++ pyLower arg) = false from rfl,
      show cmdExplain.isPrefixOf ( "evaluate ".data ++ pyLower arg) = false from rfl,
      show cmdPractice.isPrefixOf ( "evaluate ".data ++ pyLower arg) = false from rfl,
      show cmdEvaluate.isPrefixOf ( "evaluate ".data ++ pyLower arg) = true from rfl,
      Bool.false_eq_true, if_false, if_true]
    have hdrop : ( "evaluate ".data ++ pyLower arg).drop 8 = ' ' :: pyLower arg := rfl
    rw [hdrop, pyStrip_cons_space, pyStrip_pyLower h, pyLower_ne_nil h]
    simp

/-- Witness for C10: the mixed-case line
`query SELECT * FROM Students` reaches `execute_sql` fully lowercased,
and the same argument is lowercased for the other three commands. -/
theorem interactive_args_lowercased_witness :
    cleanStr ( "SELECT * FROM Students".data) = true ∧
    dispatch ( "query SELECT * FROM Students".data) =
      Command.queryCmd ( "select * from students".data) ∧
    dispatch ( "explain SELECT * FROM Students".data) =
      Command.explainCmd ( "select * from students".data) := by
  refine ⟨by decide, ?_, ?_⟩
  · have h := (interactive_args_lowercased ( "SELECT * FROM Students".data) (by decide)).1
    rw [show ( "query SELECT * FROM Students".data : Str) =
        "query ".data ++ "SELECT * FROM Students".data from by decide, h]
    decide
  · have h := (interactive_args_lowercased ( "SELECT * FROM Students".data) (by decide)).2.1
    rw [show ( "explain SELECT * FROM Students".data : Str) =
        "explain ".data ++ "SELECT * FROM Students".data from by decide, h]
    decide

/-- C1 counterexample: on a response missing the `Problem:` marker the
tab-2 rendering does not surface a handled error value — the split
followed by `[1]` raises an uncaught `IndexError`. -/
theorem practice_missing_marker_uncaught :
    renderPracticeProblem ( "Hints: use WHERE Solution: SELECT 1".data) = .error indexError := by
  unfold renderPracticeProblem
  rw [pySplit_noOcc problemMarker ( "Hints: use WHERE Solution: SELECT 1".data) (by decide)]
  rfl

/-- C1 amended: when the response is well-formed — the three markers
occur in order, each at its displayed position only, with non-empty
segments between and after them — the rendering extracts exactly the
problem segment (between `Problem:` and `Hints:`) and the hints segment
(between `Hints:` and `Solution:`), the solution segment following; but
when the `Problem:` marker (or the `Hints:` marker) is absent the
rendering fails with the uncaught `IndexError` rather than any handled
error value. -/
theorem practice_rendering_wellformed (pre b c d : Str)
    (hb : b ≠ []) (hc : c ≠ []) (hd : d ≠ [])
    (h1 : noEarlyOcc problemMarker pre (b ++ (hintsMarker ++ (c ++ (solutionMarker ++ d)))) = true)
    (h2 : noOcc problemMarker (b ++ (hintsMarker ++ (c ++ (solutionMarker ++ d)))) = true)
    (h3 : noEarlyOcc hintsMarker b (c ++ (solutionMarker ++ d)) = true)
    (h4 : noOcc hintsMarker (c ++ (solutionMarker ++ d)) = true)
    (h5 : noEarlyOcc hintsMarker (pre ++ problemMarker ++ b) (c ++ (solutionMarker ++ d)) = true)
    (h6 : noEarlyOcc solutionMarker c d = true)
    (h7 : noOcc solutionMarker d = true) :
    renderPracticeProblem
        (pre ++ (problemMarker ++ (b ++ (hintsMarker ++ (c ++ (solutionMarker ++ d)))))) =
      .ok (b, c) ∧
    (∀ p : Str, noOcc problemMarker p = true → renderPracticeProblem p = .error indexError) ∧
    (∀ p : Str, noOcc hintsMarker p = true → renderPracticeProblem p = .error indexError) := by
  have e1 : pySplit problemMarker
      (pre ++ (problemMarker ++ (b ++ (hintsMarker ++ (c ++ (solutionMarker ++ d)))))) =
      [pre, b ++ (hintsMarker ++ (c ++ (solutionMarker ++ d)))] := by
    rw [pySplit_append problemMarker (by decide) pre _ h1, pySplit_noOcc problemMarker _ h2]
  have e2 : pySplit hintsMarker (b ++ (hintsMarker ++ (c ++ (solutionMarker ++ d)))) =
      [b, c ++ (solutionMarker ++ d)] := by
    rw [pySplit_append hintsMarker (by decide) b _ h3, pySplit_noOcc hintsMarker _ h4]
  have e3 : pySplit hintsMarker
      (pre ++ (problemMarker ++ (b ++ (hintsMarker ++ (c ++ (solutionMarker ++ d)))))) =
      [pre ++ problemMarker ++ b, c ++ (solutionMarker ++ d)] := by
    rw [show pre ++ (problemMarker ++ (b ++ (hintsMarker ++ (c ++ (solutionMarker ++ d))))) =
        (pre ++ problemMarker ++ b) ++ (hintsMarker ++ (c ++ (solutionMarker ++ d))) from by
      simp [List.append_assoc]]
    rw [pySplit_append hintsMarker (by decide) (pre ++ problemMarker ++ b) _ h5,
      pySplit_noOcc hintsMarker _ h4]
  have e4 : pySplit solutionMarker (c ++ (solutionMarker ++ d)) = [c, d] := by
    rw [pySplit_append solutionMarker (by decide) c d h6, pySplit_noOcc solutionMarker _ h7]
  refine ⟨?_, ?_, ?_⟩
  · unfold renderPracticeProblem
    rw [e1]
    simp only [List.get?]
    rw [e2, e3]
    simp only [List.get?]
    rw [e4]
    rfl
  · intro p hp
    unfold renderPracticeProblem
    rw [pySplit_noOcc problemMarker p hp]
    rfl
  · intro p hp
    cases hq : (pySplit problemMarker p).get? 1 with
    | none =>
      unfold renderPracticeProblem
      rw [hq]
    | some seg1 =>
      unfold renderPracticeProblem
      rw [hq, pySplit_noOcc hintsMarker p hp]
      rfl

/-- Witness for C1 amended: a concrete well-formed response is rendered
into its problem and hints segments, and concrete responses missing
`Problem:` (resp. `Hints:`) raise the uncaught `IndexError`. -/
theorem practice_rendering_witness :
    renderPracticeProblem ( "".data ++ (problemMarker ++ ( " find students older than 15 ".data ++
        (hintsMarker ++ ( " 1. use WHERE 2. compare age ".data ++ (solutionMarker ++
        " SELECT * FROM students WHERE age > 15".data)))))) =
      .ok ( " find students older than 15 ".data, " 1. use WHERE 2. compare age ".data) ∧
    renderPracticeProblem ( "no markers at all".data) = .error indexError ∧
    renderPracticeProblem ( "Problem: p then silence".data) = .error indexError :=
  ⟨(practice_rendering_wellformed ( "".data) ( " find students older than 15 ".data)
      ( " 1. use WHERE 2. compare age ".data) ( " SELECT * FROM students WHERE age > 15".data)
      (by decide) (by decide) (by decide) (by decide) (by decide) (by decide) (by decide)
      (by decide) (by decide) (by decide)).1,
    (practice_rendering_wellformed ( "".data) ( "x".data) ( "x".data) ( "x".data)
      (by decide) (by decide) (by decide) (by decide) (by decide) (by decide) (by decide)
      (by decide) (by decide) (by decide)).2.1 ( "no markers at all".data) (by decide),
    (practice_rendering_wellformed ( "".data) ( "x".data) ( "x".data) ( "x".data)
      (by decide) (by decide) (by decide) (by decide) (by decide) (by decide) (by decide)
      (by decide) (by decide) (by decide)).2.2 ( "Problem: p then silence".data) (by decide)⟩
